import Mathlib

/-!
# Verification of the HIPL control plane and ESP-protection conntrack

Shallow embedding of the parts of the HIPL sources relevant to the claims
under study: the Diffie-Hellman downgrade checks of `libhipl/input.c`, the
I2 collision and retransmission handling, the keying-material draw order,
the HMAC verification frame effect, the userspace BEET-mode ESP
encapsulation of `hipfw/user_ipsec_esp.c`, and the anchor cache and token
verification of `hipfw/esp_prot_conntrack.c`.

Machine integers are modelled as `Nat` with explicit `% 2^32` where the C
code relies on unsigned wrap-around.  Byte buffers are `List Nat`.
Functions from files that are not part of the studied sources (the keymat
KDF, the HIT comparison, the hash-chain element verifier, the R2 builder)
are modelled from the specification and marked as such in their doc
comments.
-/

namespace Hipl

/-! ## Basic machine arithmetic -/

/-- Unsigned 32-bit subtraction `a - b` as performed on `uint32_t` values:
wrap-around modulo `2^32` (operands are assumed reduced). -/
def u32sub (a b : Nat) : Nat :=
  (a + 2 ^ 32 - b % 2 ^ 32) % 2 ^ 32

/-- Index of the first list element satisfying `p`: the linear scans the C
code performs over its linked lists. -/
def findIdxO {α : Type} (p : α → Bool) : List α → Option Nat
  | [] => none
  | x :: xs => if p x then some 0 else (findIdxO p xs).map (· + 1)

/-! ## Diffie-Hellman groups (libcore/crypto.c, group ids per RFC 7401) -/

def HIP_DH_OAKLEY_5 : Nat := 3

def HIP_DH_OAKLEY_15 : Nat := 4

def HIP_DH_NIST_P_384 : Nat := 8

/-- Constant table `HIP_DH_GROUP_LIST` of libcore/crypto.c:72: the local ordered DH group
preference list. -/
def HIP_DH_GROUP_LIST : List Nat :=
  [HIP_DH_NIST_P_384, HIP_DH_OAKLEY_15, HIP_DH_OAKLEY_5]

/-- Constant table `dhprime_len` table of libcore/crypto.c:327, indexed by group id
(entries: reserved, 384-bit, Oakley-1, modp-1536, modp-3072, modp-6144,
modp-8192, NIST P-256, NIST P-384, NIST P-521, SECP 160R1). -/
def dhprime_len : List Int :=
  [-1, 48, 96, 192, 384, 768, 1024, 64, 96, 132, 0]

/-- Source function `hip_get_dh_size` of libcore/crypto.c:887: size in bytes of the DH
shared secret for a group id, 0 for reserved/unknown groups. -/
def hip_get_dh_size (g : Nat) : Nat :=
  if g = 0 then 0
  else if g > dhprime_len.length then 0
  else (dhprime_len.getD g 0).toNat

/-- First group of `ours` that also occurs in `peers`: this is the group the
nested loops of `check_dh_downgrade_v2` settle on. -/
def firstCommonGroup (ours peers : List Nat) : Option Nat :=
  ours.find? fun g => peers.contains g

/-- Source function `check_dh_downgrade_v2` of libhipl/input.c:121: walk our preference list
in order, looking for the first group also contained in the peer's list; the
peer must have chosen exactly that group, otherwise a downgrade is detected
(-1).  -1 as well when the lists share no group. -/
def check_dh_downgrade_v2 (peer_group : Nat) (peer_list : List Nat) : Int :=
  match firstCommonGroup HIP_DH_GROUP_LIST peer_list with
  | some g => if peer_group = g then 0 else -1
  | none => -1

def EINVAL : Int := 22

def ENOENT : Int := 2

def ENOMSG : Int := 42

def HIP_V1 : Nat := 1

def HIP_V2 : Nat := 2

/-- DIFFIE_HELLMAN validation performed on the responder in `hip_check_i2`
(libhipl/input.c:1536-1554): the chosen group must occur somewhere in our
own supported list and carry a public value of the right length.  No
downgrade detection is performed here. -/
def hip_check_i2_dh_validate (dh_group_id pub_len : Nat) : Int :=
  if ¬ HIP_DH_GROUP_LIST.contains dh_group_id then -EINVAL
  else if hip_get_dh_size dh_group_id ≠ pub_len then -EINVAL
  else 0

/-- DH downgrade detection fragment of `hip_check_r1`
(libhipl/input.c:806-822), run by the *initiator* on receipt of R1: only
under HIPv2, requires the DH_GROUP_LIST and DIFFIE_HELLMAN parameters and
delegates to `check_dh_downgrade_v2`. -/
def hip_check_r1_downgrade (hip_version : Nat) (dh_list : Option (List Nat))
    (dh_group : Option Nat) : Int :=
  if hip_version = HIP_V2 then
    match dh_list with
    | none => -ENOENT
    | some l =>
      match dh_group with
      | none => -ENOENT
      | some g => if check_dh_downgrade_v2 g l < 0 then -EINVAL else 0
  else 0

/-! ## HIT comparison and the I2/I2 collision rule -/

/-- Modelled from the spec: `hip_hit_is_bigger` (libcore, not under the
studied sources).  HITs are 128-bit tags whose equality and total order are
bytewise, i.e. numeric comparison of the big-endian value. -/
def hip_hit_is_bigger (a b : Nat) : Bool :=
  b < a

/-- Source function `hip_handle_i2_in_i2_sent` of libhipl/input.c:1040: when an I2 arrives
in state I2_SENT, set the error flag (drop the packet) exactly when the
peer's HIT is bigger than ours; the function returns the error flag. -/
def hip_handle_i2_in_i2_sent (hit_peer hit_our : Nat) (error : Int) : Int :=
  if hip_hit_is_bigger hit_peer hit_our then 1 else error

inductive HipState
  | UNASSOC | I1_SENT | I2_SENT | R2_SENT | ESTABLISHED | CLOSING | CLOSED | FAILED
  deriving DecidableEq, Repr

/-- State assignment at the end of `hip_handle_i2` (libhipl/input.c:1865):
the responder that fully processes an I2 moves to ESTABLISHED. -/
def hip_handle_i2_result_state : HipState := .ESTABLISHED

/-- State assignment in `hip_handle_r2` (libhipl/input.c:1188): the side
that processes an R2 moves to ESTABLISHED. -/
def hip_handle_r2_result_state : HipState := .ESTABLISHED

/-! ## HMAC verification frame effect (C10) -/

/-- The part of a HIP control message mutated by
`hip_verify_packet_hmac_general`: the total-length field of the header, the
checksum field, and the byte offset of the HMAC parameter (if present). -/
structure HipMsg where
  totalLen : Nat
  checksum : Nat
  hmacOffset : Option Nat
  deriving DecidableEq, Repr

/-- Source function `hip_verify_packet_hmac_general` of libhipl/input.c:158, as a state
transformer on the caller's message buffer.  `verify_hmac` abstracts the
HMAC computation over the (truncated, checksum-zeroed) message.  The C code
truncates the total length to the HMAC parameter's offset and zeroes the
checksum before verifying, and restores the two fields only after a
successful verification: the early `return -1` on failure leaves the buffer
mutated. -/
def hip_verify_packet_hmac_general (verify_hmac : HipMsg → Bool)
    (msg : HipMsg) : Int × HipMsg :=
  match msg.hmacOffset with
  | none => (-ENOMSG, msg)
  | some off =>
    let truncated : HipMsg := { msg with checksum := 0, totalLen := off }
    if verify_hmac truncated then
      (0, { truncated with totalLen := msg.totalLen, checksum := msg.checksum })
    else
      (-1, truncated)

/-! ## Keying-material derivation (C5) -/

/-- The HITs in the order used by the keymat KDF: the numerically greater
one first ("sort(HIT_i, HIT_r)"). -/
def sortHITs (a b : Nat) : Nat × Nat :=
  if hip_hit_is_bigger a b then (a, b) else (b, a)

/-- Modelled from the spec: `hip_make_keymat` (libcore keymat.c, not under
the studied sources) expands the DH shared secret into a key stream of
SHA-1 blocks `K_n = SHA1(key-material ‖ sort(HIT_i,HIT_r) ‖ I ‖ J ‖ n)`.
The block computation itself is abstracted by `kdf`; what matters here is
that the stream depends on the HITs only through the sorted pair. -/
def hip_make_keymat (kdf : List Nat → Nat × Nat → List Nat → List Nat → List Nat)
    (dh : List Nat) (hit_sender hit_receiver : Nat) (I J : List Nat) : List Nat :=
  kdf dh (sortHITs hit_sender hit_receiver) I J

/-- The four per-transform key lengths computed at the top of
`produce_keying_material` (libhipl/input.c:295-298). -/
structure KeyLens where
  hip_transf_length : Nat
  hmac_transf_length : Nat
  esp_transf_length : Nat
  auth_transf_length : Nat
  deriving DecidableEq, Repr

/-- The eight base-exchange keys stored in the host association
(hip_enc/hip_hmac/esp/auth, inbound and outbound). -/
structure HaKeys where
  hip_enc_out : List Nat
  hip_hmac_out : List Nat
  hip_enc_in : List Nat
  hip_hmac_in : List Nat
  esp_out : List Nat
  auth_out : List Nat
  esp_in : List Nat
  auth_in : List Nat
  deriving DecidableEq, Repr

/-- The key draw sequence of `produce_keying_material`
(libhipl/input.c:393-427): eight consecutive draws, each one taking the
next `len` bytes off the stream and advancing the cursor (the behaviour of
`hip_keymat_draw_and_copy`, modelled from the spec: keys are drawn
contiguously).  When we are the greater HIT the draws land in the slots
out,out,in,in,out,out,in,in, otherwise in the slots
in,in,out,out,in,in,out,out. -/
def produce_keying_material_draw (keymat : List Nat) (L : KeyLens)
    (we_are_HITg : Bool) : HaKeys :=
  let h := L.hip_transf_length
  let m := L.hmac_transf_length
  let e := L.esp_transf_length
  let a := L.auth_transf_length
  let k1 := keymat.take h
  let r1 := keymat.drop h
  let k2 := r1.take m
  let r2 := r1.drop m
  let k3 := r2.take h
  let r3 := r2.drop h
  let k4 := r3.take m
  let r4 := r3.drop m
  let k5 := r4.take e
  let r5 := r4.drop e
  let k6 := r5.take a
  let r6 := r5.drop a
  let k7 := r6.take e
  let r7 := r6.drop e
  let k8 := r7.take a
  if we_are_HITg then
    { hip_enc_out := k1, hip_hmac_out := k2, hip_enc_in := k3, hip_hmac_in := k4
      esp_out := k5, auth_out := k6, esp_in := k7, auth_in := k8 }
  else
    { hip_enc_in := k1, hip_hmac_in := k2, hip_enc_out := k3, hip_hmac_out := k4
      esp_in := k5, auth_in := k6, esp_out := k7, auth_out := k8 }

/-- Source function `produce_keying_material` (libhipl/input.c:264-459), restricted to the
key derivation: build the key stream from the DH secret, the message's
sender/receiver HITs and the puzzle values, decide `we_are_HITg` by
`hip_hit_is_bigger(hit_receiver, hit_sender)` (the receiver of the message
is the local host), and draw the eight keys. -/
def produce_keying_material
    (kdf : List Nat → Nat × Nat → List Nat → List Nat → List Nat)
    (dh : List Nat) (hit_sender hit_receiver : Nat) (I J : List Nat)
    (L : KeyLens) : HaKeys :=
  let keymat := hip_make_keymat kdf dh hit_sender hit_receiver I J
  produce_keying_material_draw keymat L
    (hip_hit_is_bigger hit_receiver hit_sender)

/-- The eight keys concatenated in the fixed order of the spec
{HIP-enc-gL, HIP-HMAC-gL, HIP-enc-Lg, HIP-HMAC-Lg, ESP-enc-gL, ESP-auth-gL,
ESP-enc-Lg, ESP-auth-Lg}: for the host with the numerically greater HIT the
gL-direction keys are its outbound keys, for the other host its inbound
keys. -/
def specOrderBlock (k : HaKeys) (localIsG : Bool) : List Nat :=
  if localIsG then
    k.hip_enc_out ++ k.hip_hmac_out ++ k.hip_enc_in ++ k.hip_hmac_in ++
      k.esp_out ++ k.auth_out ++ k.esp_in ++ k.auth_in
  else
    k.hip_enc_in ++ k.hip_hmac_in ++ k.hip_enc_out ++ k.hip_hmac_out ++
      k.esp_in ++ k.auth_in ++ k.esp_out ++ k.auth_out

/-- Length `keymat_len_min` of libhipl/input.c:311: total length of the eight
base-exchange keys. -/
def keymat_len_min (L : KeyLens) : Nat :=
  L.hip_transf_length + L.hmac_transf_length + L.hip_transf_length +
    L.hmac_transf_length + L.esp_transf_length + L.auth_transf_length +
    L.esp_transf_length + L.auth_transf_length

/-! ## Userspace BEET-mode ESP (C8, C9) -/

def HIP_ESP_RESERVED : Nat := 0

def HIP_ESP_AES_SHA1 : Nat := 1

def HIP_ESP_3DES_SHA1 : Nat := 2

def HIP_ESP_3DES_MD5 : Nat := 3

def HIP_ESP_BLOWFISH_SHA1 : Nat := 4

def HIP_ESP_NULL_SHA1 : Nat := 5

def HIP_ESP_NULL_MD5 : Nat := 6

def AES_BLOCK_SIZE : Nat := 16

/-- Size of `struct hip_esp_tail`: one byte of pad length followed by one byte of
next-header type (modelled from the spec: "ESP-tail {pad_len, next_hdr}";
the defining header is not under the studied sources). -/
def sizeof_hip_esp_tail : Nat := 2

/-- ICV_LENGTH of hipfw/user_ipsec_esp.c:53: the ESP authentication tag is
truncated to 12 bytes. -/
def ICV_LENGTH : Nat := 12

/-- IV-length selection switch at the start of `payload_encrypt`
(hipfw/user_ipsec_esp.c:176-217): 8 for 3DES and Blowfish, 0 for NULL
encryption, the AES block size (16) for AES; unsupported transforms
fail. -/
def payload_encrypt_iv_len (ealg : Nat) : Option Nat :=
  if ealg = HIP_ESP_3DES_SHA1 ∨ ealg = HIP_ESP_3DES_MD5 then some 8
  else if ealg = HIP_ESP_BLOWFISH_SHA1 then some 8
  else if ealg = HIP_ESP_NULL_SHA1 ∨ ealg = HIP_ESP_NULL_MD5 then some 0
  else if ealg = HIP_ESP_AES_SHA1 then some AES_BLOCK_SIZE
  else none

/-- Pad length computation of `payload_encrypt`
(hipfw/user_ipsec_esp.c:223-230): with an IV the sum of payload length and
ESP tail is rounded up to the IV length, without an IV (NULL encryption) to
a multiple of 4.  The pad is never 0: it ranges over 1..iv_len
(resp. 1..4). -/
def payload_encrypt_pad_len (iv_len elen : Nat) : Nat :=
  if 0 < iv_len then iv_len - (elen + sizeof_hip_esp_tail) % iv_len
  else 4 - (elen + sizeof_hip_esp_tail) % 4

/-- The pad bytes written by the loop of hipfw/user_ipsec_esp.c:234-236:
`in[in_len + i] = i + 1`. -/
def payload_encrypt_padding (pad_len : Nat) : List Nat :=
  (List.range pad_len).map (· + 1)

/-- The plaintext handed to the cipher by `payload_encrypt`
(hipfw/user_ipsec_esp.c:233-246): payload, pad bytes, then the ESP tail
{pad_len, next_hdr}. -/
def payload_encrypt_plaintext (payload : List Nat) (in_type pad_len : Nat) :
    List Nat :=
  payload ++ payload_encrypt_padding pad_len ++ [pad_len % 256, in_type]

/-- The two HMAC algorithms used by the userspace ESP implementation. -/
inductive HmacAlg
  | sha1 | md5
  deriving DecidableEq, Repr

/-- Authentication-stage dispatch of `payload_encrypt`
(hipfw/user_ipsec_esp.c:295-335): the MD5 suites authenticate with
HMAC-MD5, the SHA1 suites with HMAC-SHA1, everything else — including
BLOWFISH_SHA1, which is missing from the switch — fails. -/
def payload_encrypt_auth_alg (ealg : Nat) : Option HmacAlg :=
  if ealg = HIP_ESP_3DES_MD5 ∨ ealg = HIP_ESP_NULL_MD5 then some .md5
  else if ealg = HIP_ESP_3DES_SHA1 ∨ ealg = HIP_ESP_NULL_SHA1 ∨
      ealg = HIP_ESP_AES_SHA1 then some .sha1
  else none

/-- Number of ICV bytes appended to the packet by `payload_encrypt`
(hipfw/user_ipsec_esp.c:338): always `ICV_LENGTH`, cutting off longer
digests. -/
def payload_encrypt_icv_bytes : Nat := ICV_LENGTH

/-- Authentication-stage dispatch of `payload_decrypt`
(hipfw/user_ipsec_esp.c:383-446).  Returns the HMAC algorithm, the number
of trailing ICV bytes cut off the input (`alen`), and the number of bytes
actually compared by `memcmp`: the SHA1 arm compares `alen` (12) bytes, the
MD5 arm compares the full digest length `md_len .md5` (16) bytes, over-
reading past the 12-byte ICV.  `md_len` gives each algorithm's full digest
length. -/
def payload_decrypt_auth (ealg : Nat) (md_len : HmacAlg → Nat) :
    Option (HmacAlg × Nat × Nat) :=
  if ealg = HIP_ESP_3DES_MD5 ∨ ealg = HIP_ESP_NULL_MD5 then
    some (.md5, ICV_LENGTH, md_len .md5)
  else if ealg = HIP_ESP_3DES_SHA1 ∨ ealg = HIP_ESP_NULL_SHA1 ∨
      ealg = HIP_ESP_AES_SHA1 then
    some (.sha1, ICV_LENGTH, ICV_LENGTH)
  else none

/-! ## ESP-protection connection tracking (C1, C3, C7) -/

/-- ESP-protection transforms (esp_prot_defines.h; numeric ids as in the
repository's defines, only their distinctness and the comparison with
UNUSED matter below). -/
def ESP_PROT_TFM_UNUSED : Nat := 0

def ESP_PROT_TFM_PLAIN : Nat := 1

def ESP_PROT_TFM_PARALLEL : Nat := 2

def ESP_PROT_TFM_CUMULATIVE : Nat := 3

def ESP_PROT_TFM_PARA_CUMUL : Nat := 4

def ESP_PROT_TFM_TREE : Nat := 5

/-- A hash-chain anchor / token: a byte string of the transform's hash
length. -/
abbrev Anchor := List Nat

/-- Struct `esp_anchor_item` of hipfw/esp_prot_conntrack.c:66: a cached
anchor-update, one entry per pending UPDATE.  Per parallel chain it stores
the announced active anchor, the optional new (next) anchor, and the
optional new link-tree root. -/
structure EspAnchorItem where
  seq : Nat
  transform : Nat
  hash_item_length : Nat
  active_anchors : List Anchor
  next_anchors : List (Option Anchor)
  root_length : Nat
  roots : List (Option Anchor)
  deriving DecidableEq, Repr, Inhabited

/-- Struct `esp_tuple` of hipfw/hipfw_defines.h:107, restricted to the
fields touched by the ESP-protection extension.  The per-chain arrays are
lists indexed by the chain number; `hash_buffer` is the cumulative-auth
ring buffer of (seq, packet hash) pairs. -/
structure EspTuple where
  spi : Nat
  seq_no : Nat
  esp_prot_tfm : Nat
  hash_item_length : Nat
  num_hchains : Nat
  active_anchors : List Anchor
  first_active_anchors : List Anchor
  next_anchors : List Anchor
  active_root_length : Nat
  active_roots : List (Option Anchor)
  next_root_length : List Nat
  next_roots : List (Option Anchor)
  anchor_cache : List EspAnchorItem
  hash_buffer : List (Nat × List Nat)
  deriving DecidableEq, Repr, Inhabited

/-- One `esp_prot_anchor` parameter of an UPDATE message: transform, the
update hash-structure length, and `anchors` split into the active anchor
and the (possibly all-zero, meaning absent) next anchor. -/
structure EspProtAnchorParam where
  transform : Nat
  hash_item_length : Nat
  active : Anchor
  next : Anchor
  deriving DecidableEq, Repr, Inhabited

/-- Source function `esp_prot_conntrack_find_esp_tuple` of hipfw/esp_prot_conntrack.c:132:
index of the first ESP tuple whose *first* active anchor of chain 0 equals
the received active anchor. -/
def esp_prot_conntrack_find_esp_tuple (esp_tuples : List EspTuple)
    (active_anchor : Anchor) : Option Nat :=
  findIdxO (fun t => t.first_active_anchors.getD 0 [] == active_anchor) esp_tuples

/-- The `esp_anchor_item` built by `esp_prot_conntrack_cache_anchor`
(hipfw/esp_prot_conntrack.c:215-268) from the SEQ parameter and the
per-chain anchor/root parameters: a next anchor is recorded only when it
differs from `hash_length` zero bytes (the `cmp_value` check); the item's
root length is the one of the last root parameter provided. -/
def mkEspAnchorItem (hash_length seq_update_id n : Nat)
    (anchors : List EspProtAnchorParam) (roots : List (Option Anchor)) :
    EspAnchorItem :=
  { seq := seq_update_id
    transform := (anchors.getD 0 default).transform
    hash_item_length := (anchors.getD 0 default).hash_item_length
    active_anchors := (List.range n).map fun i => (anchors.getD i default).active
    next_anchors := (List.range n).map fun i =>
      let nx := (anchors.getD i default).next
      if nx ≠ List.replicate hash_length 0 then some nx else none
    root_length := (List.range n).foldl
      (fun acc i => match roots.getD i none with
        | some r => r.length
        | none => acc) 0
    roots := (List.range n).map fun i => roots.getD i none }

/-- Source function `esp_prot_conntrack_cache_anchor` of hipfw/esp_prot_conntrack.c:186:
resolve the transform's hash length, look up the ESP tuple matching the
first received active anchor, build the cache item and *prepend* it to the
tuple's anchor cache (`hip_ll_add_first`).  There is no duplicate check of
any kind.  `resolve_hash_length` abstracts the conntrack transform table.
Returns the updated tuple list, `none` on lookup failure. -/
def esp_prot_conntrack_cache_anchor (resolve_hash_length : Nat → Nat)
    (esp_tuples : List EspTuple) (seq_update_id : Nat)
    (anchors : List EspProtAnchorParam) (roots : List (Option Anchor)) :
    Option (List EspTuple) :=
  match anchors with
  | [] => none
  | a0 :: _ =>
    let hash_length := resolve_hash_length a0.transform
    match esp_prot_conntrack_find_esp_tuple esp_tuples a0.active with
    | none => none
    | some idx =>
      let t := esp_tuples.getD idx default
      let item := mkEspAnchorItem hash_length seq_update_id t.num_hchains
        anchors roots
      some (esp_tuples.set idx { t with anchor_cache := item :: t.anchor_cache })

/-- SEQ tracking of `esp_prot_conntrack_lupdate`
(hipfw/esp_prot_conntrack.c:1022-1031): a light update is treated as old
(rejected) only when its update id is *strictly* smaller than the last seen
one; an equal id passes and `lupdate_seq` is (re)stored. -/
def esp_prot_conntrack_lupdate_seq_check (seq_update_id lupdate_seq : Nat) :
    Bool :=
  ¬ seq_update_id < lupdate_seq

/-- Per-chain body of the `found` branch of
`esp_prot_conntrack_update_anchor` (hipfw/esp_prot_conntrack.c:350-381):
when the tuple's first-active anchor of chain `i` equals the cached item's
active anchor, the tuple's next anchor of that chain is overwritten with
the item's next anchor, and the item's root (if any) is installed as next
root with the item's root length. -/
def esp_prot_conntrack_update_anchor_chain (item : EspAnchorItem)
    (u : EspTuple) (i : Nat) : EspTuple :=
  if u.first_active_anchors.getD i [] = item.active_anchors.getD i [] then
    let u1 :=
      { u with next_anchors :=
          u.next_anchors.set i ((item.next_anchors.getD i none).getD []) }
    match item.roots.getD i none with
    | some r =>
      { u1 with next_root_length := u1.next_root_length.set i item.root_length
                next_roots := u1.next_roots.set i (some r) }
    | none => u1
  else u

/-- Source function `esp_prot_conntrack_update_anchor` of hipfw/esp_prot_conntrack.c:290:
on receipt of an UPDATE ACK, find the ESP tuple of the *other* direction by
the ESP_INFO's old SPI, scan its anchor cache for the first item whose
stored seq equals the ACK's peer update id, and if found: take over the
item's hash-item length; run the per-chain update for every chain; finally
delete the item from the cache.  The active anchors are not touched.
Returns the updated tuple list of the other direction, `none` on failure
(no tuple or no cached match). -/
def esp_prot_conntrack_update_anchor (other_dir_esp_tuples : List EspTuple)
    (ack_peer_update_id esp_info_old_spi : Nat) :
    Option (List EspTuple) :=
  match findIdxO (fun t => t.spi == esp_info_old_spi) other_dir_esp_tuples with
  | none => none
  | some ti =>
    let t := other_dir_esp_tuples.getD ti default
    match findIdxO (fun it => it.seq == ack_peer_update_id) t.anchor_cache with
    | none => none
    | some ii =>
      let item := t.anchor_cache.getD ii default
      let t1 := { t with hash_item_length := item.hash_item_length }
      let t2 := (List.range t1.num_hchains).foldl
        (esp_prot_conntrack_update_anchor_chain item) t1
      some (other_dir_esp_tuples.set ti
        { t2 with anchor_cache := t2.anchor_cache.eraseIdx ii })

/-- Root rotation of `esp_prot_conntrack_verify`
(hipfw/esp_prot_conntrack.c:1216-1220), performed on an anchor change. -/
def esp_prot_conntrack_rotate_roots (t : EspTuple) (ach : Nat) : EspTuple :=
  { t with active_roots := t.active_roots.set ach (t.next_roots.getD ach none)
           next_roots := t.next_roots.set ach none
           active_root_length := t.next_root_length.getD ach 0
           next_root_length := t.next_root_length.set ach 0 }

/-- Anchor-change block of `esp_prot_conntrack_verify`
(hipfw/esp_prot_conntrack.c:1196-1229): in tree mode the next anchor
becomes active; otherwise the just-verified token does, while the backup
copy `first_active_anchors` is set to the next anchor; then the link-tree
roots rotate. -/
def esp_prot_conntrack_verify_anchor_change (use_hash_trees : Bool)
    (t : EspTuple) (ach : Nat) (token : Anchor) : EspTuple :=
  let nxt := t.next_anchors.getD ach []
  let t1 :=
    if use_hash_trees then
      { t with active_anchors := t.active_anchors.set ach nxt
               first_active_anchors := t.first_active_anchors.set ach nxt }
    else
      { t with active_anchors := t.active_anchors.set ach token
               first_active_anchors := t.first_active_anchors.set ach nxt }
  esp_prot_conntrack_rotate_roots t1 ach

/-- Cumulative-token caching loop of `esp_prot_conntrack_verify`
(hipfw/esp_prot_conntrack.c:1175-1192): each carried (seq, hash) pair is
stored into the ring buffer slot `seq % ring_buffer_size` when its seq is
strictly fresher than the slot's. -/
def esp_prot_conntrack_cache_cumul_items (ring_buffer_size : Nat)
    (t : EspTuple) (items : List (Nat × List Nat)) : EspTuple :=
  let step := fun (buf : List (Nat × List Nat)) (it : Nat × List Nat) =>
    if (buf.getD (it.1 % ring_buffer_size) (0, [])).1 < it.1 then
      buf.set (it.1 % ring_buffer_size) it
    else buf
  { t with hash_buffer := items.foldl step t.hash_buffer }

/-- The fields of an incoming ESP packet used by
`esp_prot_conntrack_verify`: the (host order) ESP sequence number, the
token bytes right behind the ESP header, the carried cumulative-auth
(seq, hash) pairs behind the token, and the hash of the packet's ESP part
as computed by the transform's hash function. -/
structure EspProtPacket where
  esp_seq : Nat
  token : Anchor
  cumul_items : List (Nat × List Nat)
  packet_hash : List Nat
  deriving DecidableEq, Repr

/-- Source function `esp_prot_conntrack_verify` of hipfw/esp_prot_conntrack.c:1067 (with
the ESP-protection extension active).  `verify_hchain` abstracts
`esp_prot_verify_hchain_element` of esp_prot_api.c (not under the studied
sources): it receives the active anchor, the next anchor, the token and the
number `W` of hashes to apply, and returns the api's error code (< 0
failure, 0 verified, > 0 anchor change) together with the element it wrote
back into the active-anchor slot.  `verify_htree` likewise abstracts
`esp_prot_verify_htree_element`.  The selected chain is
`(esp_seq - 1) % num_hchains` (uint32 arithmetic); for non-tree transforms
the token is chain-verified only when `W = esp_seq - seq_no` (uint32)
satisfies `0 < W ≤ window_size`; outside that window, cumulative transforms
may still authenticate the packet against the ring buffer; every other case
is a drop (-1) leaving the tuple unchanged. -/
def esp_prot_conntrack_verify
    (verify_hchain : Anchor → Anchor → Anchor → Nat → Int × Anchor)
    (verify_htree : EspTuple → Nat → Anchor → Int)
    (window_size ring_buffer_size : Nat)
    (t : EspTuple) (pkt : EspProtPacket) : Int × EspTuple :=
  if t.esp_prot_tfm ≤ ESP_PROT_TFM_UNUSED then (0, t)
  else
    let current_seq := pkt.esp_seq
    let ach := u32sub current_seq 1 % t.num_hchains
    if t.esp_prot_tfm = ESP_PROT_TFM_TREE then
      let e := verify_htree t ach pkt.token
      if e < 0 then (-1, t)
      else if 0 < e then
        (0, esp_prot_conntrack_verify_anchor_change true t ach pkt.token)
      else (0, t)
    else
      let W := u32sub current_seq t.seq_no
      let cumulative := t.esp_prot_tfm = ESP_PROT_TFM_CUMULATIVE ∨
        t.esp_prot_tfm = ESP_PROT_TFM_PARA_CUMUL
      if 0 < W ∧ W ≤ window_size then
        let r := verify_hchain (t.active_anchors.getD ach [])
          (t.next_anchors.getD ach []) pkt.token W
        if r.1 < 0 then (-1, t)
        else
          let t1 := { t with active_anchors := t.active_anchors.set ach r.2 }
          let t2 := if cumulative then
              esp_prot_conntrack_cache_cumul_items ring_buffer_size t1
                pkt.cumul_items
            else t1
          if 0 < r.1 then
            (0, esp_prot_conntrack_verify_anchor_change false t2 ach pkt.token)
          else (0, t2)
      else if cumulative ∧ 0 < u32sub t.seq_no current_seq then
        let cached := t.hash_buffer.getD (current_seq % ring_buffer_size) (0, [])
        if cached.1 = current_seq then
          if cached.2 ≠ pkt.packet_hash then (-1, t)
          else
            (0, esp_prot_conntrack_cache_cumul_items ring_buffer_size t
              pkt.cumul_items)
        else (-1, t)
      else (-1, t)

/-! ## I2 retransmission handling (C4) -/

/-- The host-association fields involved in I2 retransmission detection and
key production (libcore/state.h / libhipl/input.c). -/
structure HadbEntry where
  spi_outbound_new : Nat
  esp_keymat_index : Nat
  hip_version : Nat
  keys : HaKeys
  deriving DecidableEq, Repr

/-- Source function `i2_is_retransmission` of libhipl/input.c:1394: an I2 is a
retransmission iff it carries an ESP_INFO parameter whose new SPI and
keymat index both equal the values stored in the existing host
association. -/
def i2_is_retransmission (entry : HadbEntry)
    (esp_info : Option (Nat × Nat)) : Bool :=
  match esp_info with
  | none => false
  | some si => entry.spi_outbound_new == si.1 && entry.esp_keymat_index == si.2

/-- Outcome of the host-association management in `hip_check_i2`. -/
structure CheckI2Outcome where
  entry : HadbEntry
  reused_existing : Bool
  skip_key_creation : Bool
  deriving DecidableEq, Repr

/-- Host-association management and key-production steps of `hip_check_i2`
(libhipl/input.c:1492-1518 and 1566-1575): an existing association hit by a
retransmitted I2 is reused as-is and the keying-material production is
skipped; otherwise any existing association is deleted (its HIP version
surviving) and a fresh one is created, for which `produce` (the
`produce_keying_material` call) computes the keys. -/
def hip_check_i2_ha_management (entry : Option HadbEntry)
    (esp_info : Option (Nat × Nat)) (fresh : HadbEntry)
    (produce : HadbEntry → HaKeys) : CheckI2Outcome :=
  match entry with
  | some e =>
    if i2_is_retransmission e esp_info then
      { entry := e, reused_existing := true, skip_key_creation := true }
    else
      let e1 := { fresh with hip_version := e.hip_version }
      { entry := { e1 with keys := produce e1 }
        reused_existing := false
        skip_key_creation := false }
  | none =>
    { entry := { fresh with keys := produce fresh }
      reused_existing := false
      skip_key_creation := false }

/-- An R2 message: ESP_INFO (keymat index, SPI), HMAC2 and SIGNATURE. -/
structure R2Msg where
  esp_info_keymat_index : Nat
  spi : Nat
  hmac2 : List Nat
  sig : List Nat
  deriving DecidableEq, Repr

/-- Modelled from the spec: `hip_create_r2` (libhipl/output.c, not under
the studied sources) builds the R2 as a deterministic function of the host
association: ESP_INFO from its SPI and keymat index, HMAC2 keyed by its
outbound HMAC key, and the signature; `hmac2_of` and `sign_of` abstract the
two computations. -/
def hip_create_r2 (hmac2_of sign_of : HadbEntry → List Nat)
    (spi_inbound : Nat) (e : HadbEntry) : R2Msg :=
  { esp_info_keymat_index := e.esp_keymat_index
    spi := spi_inbound
    hmac2 := hmac2_of e
    sig := sign_of e }

/-! ## Concrete conntrack states used in the scenarios below -/

/-- A cached anchor-update item: seq 9, transform 1, announced active
anchor [1] and next anchor [2], no roots. -/
def exItem9 : EspAnchorItem :=
  { seq := 9, transform := 1, hash_item_length := 100
    active_anchors := [[1]], next_anchors := [some [2]]
    root_length := 0, roots := [none] }

/-- An ESP tuple with a single PLAIN hash chain, SPI 5, active anchor [1],
whose anchor cache already holds `exItem9` (the item of a first UPDATE with
seq 9). -/
def exTupleCached : EspTuple :=
  { spi := 5, seq_no := 0, esp_prot_tfm := ESP_PROT_TFM_PLAIN
    hash_item_length := 100, num_hchains := 1
    active_anchors := [[1]], first_active_anchors := [[1]]
    next_anchors := [[0]]
    active_root_length := 0, active_roots := [none]
    next_root_length := [0], next_roots := [none]
    anchor_cache := [exItem9], hash_buffer := [] }

/-- The anchor parameter of a (duplicate) first UPDATE matching
`exTupleCached`: transform 1, active anchor [1], next anchor [2]. -/
def exAnchorParam : EspProtAnchorParam :=
  { transform := 1, hash_item_length := 100, active := [1], next := [2] }

/-- An ESP tuple in CUMULATIVE mode whose stored sequence number is 200 and
whose cumulative-auth ring buffer (size 8) holds the hash [42] for the
earlier packet with seq 100 (slot 100 % 8 = 4). -/
def exTupleCumul : EspTuple :=
  { spi := 1, seq_no := 200, esp_prot_tfm := ESP_PROT_TFM_CUMULATIVE
    hash_item_length := 0, num_hchains := 1
    active_anchors := [[7]], first_active_anchors := [[7]]
    next_anchors := [[0]]
    active_root_length := 0, active_roots := [none]
    next_root_length := [0], next_roots := [none]
    anchor_cache := []
    hash_buffer := [(0, []), (0, []), (0, []), (0, []), (100, [42]),
      (0, []), (0, []), (0, [])] }

/-- A late ESP packet with seq 100 (far behind the stored seq 200) whose
packet hash matches the ring-buffer entry of `exTupleCumul`. -/
def exPktLate : EspProtPacket :=
  { esp_seq := 100, token := [], cumul_items := [], packet_hash := [42] }

/-- An ESP tuple with a single PLAIN hash chain and stored seq 10. -/
def exTuplePlain : EspTuple :=
  { spi := 3, seq_no := 10, esp_prot_tfm := ESP_PROT_TFM_PLAIN
    hash_item_length := 100, num_hchains := 1
    active_anchors := [[7]], first_active_anchors := [[7]]
    next_anchors := [[0]]
    active_root_length := 0, active_roots := [none]
    next_root_length := [0], next_roots := [none]
    anchor_cache := [], hash_buffer := [] }

/-- A replayed ESP packet carrying the same seq 10 the tuple has already
seen (window difference W = 0). -/
def exPktSame : EspProtPacket :=
  { esp_seq := 10, token := [3], cumul_items := [], packet_hash := [] }

/-! ## Theorems -/

/-! ### Generic helper lemmas -/

theorem findIdxO_lt_length {α : Type} (p : α → Bool) (l : List α) (i : Nat)
    (h : findIdxO p l = some i) : i < l.length := by
  induction l generalizing i with
  | nil => simp [findIdxO] at h
  | cons x xs ih =>
    by_cases hp : p x
    · simp [findIdxO, hp] at h
      simp [← h]
    · simp [findIdxO, hp] at h
      obtain ⟨j, hj, rfl⟩ := h
      have := ih j hj
      simp
      omega

theorem findIdxO_getD {α : Type} (p : α → Bool) (l : List α) (i : Nat) (d : α)
    (h : findIdxO p l = some i) : p (l.getD i d) = true := by
  induction l generalizing i with
  | nil => simp [findIdxO] at h
  | cons x xs ih =>
    by_cases hp : p x
    · simp [findIdxO, hp] at h
      simp [← h, hp]
    · simp [findIdxO, hp] at h
      obtain ⟨j, hj, rfl⟩ := h
      simpa using ih j hj

theorem getD_set_self {α : Type} (d : α) (l : List α) (i : Nat) (a : α)
    (h : i < l.length) : (l.set i a).getD i d = a := by
  induction l generalizing i with
  | nil => simp at h
  | cons x xs ih =>
    cases i with
    | zero => rfl
    | succ n =>
      have hn : n < xs.length := by simpa using h
      simpa using ih n hn

/-! ### C10 — HMAC verification leaves the message mutated on failure -/

/-- C10: `hip_verify_packet_hmac_general` temporarily truncates the
message's total length to the HMAC parameter's offset and zeroes the
checksum before verifying; on a successful verification both fields are
restored (the caller's buffer is returned unchanged), while on a failed
verification the function returns with the message still mutated: the
total length equals the HMAC offset and the checksum is zero. -/
theorem C10_hmac_failure_leaves_msg_mutated (verify_hmac : HipMsg → Bool)
    (msg : HipMsg) (off : Nat) (h : msg.hmacOffset = some off) :
    (verify_hmac { msg with checksum := 0, totalLen := off } = true →
      hip_verify_packet_hmac_general verify_hmac msg = (0, msg)) ∧
    (verify_hmac { msg with checksum := 0, totalLen := off } = false →
      hip_verify_packet_hmac_general verify_hmac msg =
        (-1, { msg with checksum := 0, totalLen := off })) := by
  constructor <;> intro hv
  · simp only [h] at hv
    simp only [hip_verify_packet_hmac_general, h, hv, if_true]
    rw [← h]
  · simp only [h] at hv
    simp [hip_verify_packet_hmac_general, h, hv]

/-- Witness for C10 at a concrete message (length 48, checksum 7, HMAC
parameter at offset 24) and an always-failing verifier. -/
theorem C10_hmac_failure_leaves_msg_mutated_witness :
    hip_verify_packet_hmac_general (fun _ => false) ⟨48, 7, some 24⟩ =
      (-1, ⟨24, 0, some 24⟩) :=
  (C10_hmac_failure_leaves_msg_mutated (fun _ => false) ⟨48, 7, some 24⟩ 24
    rfl).2 rfl

/-! ### C2 — where the HIPv2 DH downgrade check actually happens -/

theorem check_dh_downgrade_v2_cases (g : Nat) (l : List Nat) :
    check_dh_downgrade_v2 g l = 0 ∨ check_dh_downgrade_v2 g l = -1 := by
  unfold check_dh_downgrade_v2
  cases firstCommonGroup HIP_DH_GROUP_LIST l with
  | none => exact Or.inr rfl
  | some g0 =>
    by_cases hg : g = g0 <;> simp [hg]

/-- C2 counterexample: under HIPv2, an initiator that picks modp-3072
(Oakley group 15) although NIST P-384 is the first match of both preference
lists has performed exactly the downgrade `check_dh_downgrade_v2` is meant
to detect (the detector returns -1 on this choice) — yet the responder's I2
validation accepts the group: the DIFFIE_HELLMAN check in `hip_check_i2`
only requires membership in the local supported list and the right key
length.  The claimed rejection of the I2 does not happen. -/
theorem C2_counterexample :
    hip_check_i2_dh_validate HIP_DH_OAKLEY_15 384 = 0 ∧
    check_dh_downgrade_v2 HIP_DH_OAKLEY_15
      [HIP_DH_NIST_P_384, HIP_DH_OAKLEY_15] = -1 := by
  constructor <;> decide

/-- C2 (amended): the HIPv2 DH downgrade detection is performed by the
*initiator* on receipt of R1 — `hip_check_r1` rejects, via
`check_dh_downgrade_v2`, exactly when the peer's chosen group is not the
first group of our preference list that also occurs in the peer's list.
The responder's I2 check accepts any group of its own supported list with
the correct public-key length and performs no downgrade detection. -/
theorem C2_downgrade_check_on_r1_not_i2 (g len : Nat) (l : List Nat) :
    (check_dh_downgrade_v2 g l = 0 ↔
      firstCommonGroup HIP_DH_GROUP_LIST l = some g) ∧
    (hip_check_i2_dh_validate g len = 0 ↔
      g ∈ HIP_DH_GROUP_LIST ∧ len = hip_get_dh_size g) ∧
    (hip_check_r1_downgrade HIP_V2 (some l) (some g) = 0 ↔
      check_dh_downgrade_v2 g l = 0) := by
  refine ⟨?_, ?_, ?_⟩
  · unfold check_dh_downgrade_v2
    cases h : firstCommonGroup HIP_DH_GROUP_LIST l with
    | none => simp
    | some g0 =>
      by_cases hg : g = g0 <;> simp [hg]
      omega
  · constructor
    · intro h0
      by_cases h1 : g ∈ HIP_DH_GROUP_LIST
      · refine ⟨h1, ?_⟩
        by_cases h2 : hip_get_dh_size g = len
        · exact h2.symm
        · exfalso
          have hval : hip_check_i2_dh_validate g len = -EINVAL := by
            unfold hip_check_i2_dh_validate
            simp [h1, h2]
          rw [h0] at hval
          exact absurd hval (by decide)
      · exfalso
        have hval : hip_check_i2_dh_validate g len = -EINVAL := by
          unfold hip_check_i2_dh_validate
          simp [h1]
        rw [h0] at hval
        exact absurd hval (by decide)
    · rintro ⟨h1, rfl⟩
      unfold hip_check_i2_dh_validate
      simp [h1]
  · unfold hip_check_r1_downgrade
    rcases check_dh_downgrade_v2_cases g l with h | h <;>
      simp [h, HIP_V2, EINVAL]

/-! ### C6 — which side of an I2/I2 collision drops -/

/-- C6 counterexample: with HIT_A = 2 > HIT_B = 1, the claim says side A
(the bigger HIT) drops the received I2 while side B accepts.  The code does
the opposite: `hip_handle_i2_in_i2_sent` raises the error flag exactly when
the *peer's* HIT is bigger.  Side A (our HIT 2, peer HIT 1) returns 0 and
keeps processing B's I2; side B (our HIT 1, peer HIT 2) returns 1 and drops
A's I2. -/
theorem C6_counterexample :
    hip_handle_i2_in_i2_sent 1 2 0 = 0 ∧
    hip_handle_i2_in_i2_sent 2 1 0 = 1 := by
  constructor <;> decide

/-- C6 (amended): in an I2/I2 collision with HIT_A > HIT_B, the side with
the *smaller* HIT (B) drops the I2 it received (its peer's HIT is bigger),
while the side with the bigger HIT (A) continues processing B's I2; both
sides still reach ESTABLISHED — A at the end of `hip_handle_i2`, B on
processing A's R2 in `hip_handle_r2`. -/
theorem C6_collision_smaller_hit_side_drops (a b : Nat)
    (h : hip_hit_is_bigger a b = true) :
    hip_handle_i2_in_i2_sent a b 0 = 1 ∧
    hip_handle_i2_in_i2_sent b a 0 = 0 ∧
    hip_handle_i2_result_state = HipState.ESTABLISHED ∧
    hip_handle_r2_result_state = HipState.ESTABLISHED := by
  simp only [hip_hit_is_bigger, decide_eq_true_eq] at h
  refine ⟨?_, ?_, rfl, rfl⟩
  · simp [hip_handle_i2_in_i2_sent, hip_hit_is_bigger, h]
  · simp [hip_handle_i2_in_i2_sent, hip_hit_is_bigger]
    omega

/-- Witness for C6 (amended) at HIT_A = 5, HIT_B = 3. -/
theorem C6_collision_smaller_hit_side_drops_witness :
    hip_handle_i2_in_i2_sent 5 3 0 = 1 ∧
    hip_handle_i2_in_i2_sent 3 5 0 = 0 ∧
    hip_handle_i2_result_state = HipState.ESTABLISHED ∧
    hip_handle_r2_result_state = HipState.ESTABLISHED :=
  C6_collision_smaller_hit_side_drops 5 3 (by decide)

/-! ### C9 — padding of the userspace ESP encapsulation -/

theorem pad_len_aligns (iv elen t : Nat) (hiv : 0 < iv) :
    (elen + (iv - (elen + t) % iv) + t) % iv = 0 := by
  have hmod := Nat.div_add_mod (elen + t) iv
  have hlt : (elen + t) % iv < iv := Nat.mod_lt _ hiv
  have hsum : elen + (iv - (elen + t) % iv) + t =
      iv * ((elen + t) / iv) + iv := by omega
  rw [hsum, ← Nat.mul_succ]
  exact Nat.mul_mod_right _ _

/-- C9: for every outbound userspace-ESP packet, the pad length chosen by
`payload_encrypt` makes payload + padding + ESP-tail a multiple of the IV
length for the block ciphers (AES, 3DES, Blowfish) and a multiple of 4 for
NULL encryption, and the pad bytes are the values 1, 2, ..., pad_len in
order. -/
theorem C9_payload_encrypt_padding (ealg elen iv : Nat)
    (h : payload_encrypt_iv_len ealg = some iv) :
    ((ealg = HIP_ESP_AES_SHA1 ∨ ealg = HIP_ESP_3DES_SHA1 ∨
        ealg = HIP_ESP_3DES_MD5 ∨ ealg = HIP_ESP_BLOWFISH_SHA1) →
      (elen + payload_encrypt_pad_len iv elen + sizeof_hip_esp_tail) % iv = 0) ∧
    ((ealg = HIP_ESP_NULL_SHA1 ∨ ealg = HIP_ESP_NULL_MD5) →
      (elen + payload_encrypt_pad_len iv elen + sizeof_hip_esp_tail) % 4 = 0) ∧
    payload_encrypt_padding (payload_encrypt_pad_len iv elen) =
      List.range' 1 (payload_encrypt_pad_len iv elen) := by
  refine ⟨?_, ?_, ?_⟩
  · intro hcase
    have hiv : 0 < iv := by
      rcases hcase with h1 | h1 | h1 | h1 <;> subst h1 <;>
        simp [payload_encrypt_iv_len, HIP_ESP_AES_SHA1, HIP_ESP_3DES_SHA1,
          HIP_ESP_3DES_MD5, HIP_ESP_BLOWFISH_SHA1, HIP_ESP_NULL_SHA1,
          HIP_ESP_NULL_MD5, AES_BLOCK_SIZE] at h <;> omega
    unfold payload_encrypt_pad_len
    rw [if_pos hiv]
    exact pad_len_aligns iv elen sizeof_hip_esp_tail hiv
  · intro hcase
    have hiv : iv = 0 := by
      rcases hcase with h1 | h1 <;> subst h1 <;>
        simp [payload_encrypt_iv_len, HIP_ESP_AES_SHA1, HIP_ESP_3DES_SHA1,
          HIP_ESP_3DES_MD5, HIP_ESP_BLOWFISH_SHA1, HIP_ESP_NULL_SHA1,
          HIP_ESP_NULL_MD5] at h <;> omega
    subst hiv
    unfold payload_encrypt_pad_len
    rw [if_neg (by omega)]
    exact pad_len_aligns 4 elen sizeof_hip_esp_tail (by omega)
  · unfold payload_encrypt_padding
    rw [List.range'_eq_map_range]
    exact (List.map_congr_left fun a _ => Nat.add_comm 1 a).symm

/-- Witness for C9 with AES (IV length 16) and a 100-byte payload: the pad
length is 10 and 100 + 10 + 2 = 112 is a multiple of 16. -/
theorem C9_payload_encrypt_padding_witness :
    payload_encrypt_iv_len HIP_ESP_AES_SHA1 = some 16 ∧
    (100 + payload_encrypt_pad_len 16 100 + sizeof_hip_esp_tail) % 16 = 0 ∧
    payload_encrypt_padding (payload_encrypt_pad_len 16 100) =
      List.range' 1 (payload_encrypt_pad_len 16 100) :=
  ⟨by decide,
    (C9_payload_encrypt_padding HIP_ESP_AES_SHA1 100 16 (by decide)).1
      (Or.inl rfl),
    (C9_payload_encrypt_padding HIP_ESP_AES_SHA1 100 16 (by decide)).2.2⟩

/-! ### C8 — which HMAC authenticates the userspace ESP payload -/

/-- C8 counterexample: for the negotiated suite 3DES-CBC/HMAC-MD5 the
userspace ESP implementation authenticates with HMAC-MD5, not HMAC-SHA1 —
the claim's "HMAC-SHA1 regardless of the negotiated ESP suite" is false. -/
theorem C8_counterexample :
    payload_encrypt_auth_alg HIP_ESP_3DES_MD5 = some HmacAlg.md5 ∧
    some HmacAlg.md5 ≠ some HmacAlg.sha1 := by
  constructor <;> decide

/-- C8 (amended): the userspace BEET implementation authenticates with an
ICV truncated to 12 bytes whose HMAC algorithm follows the suite: HMAC-SHA1
for the SHA1 suites, HMAC-MD5 for the MD5 suites; BLOWFISH_SHA1 is missing
from both authentication switches and fails.  On verification the SHA1 arm
compares the 12 ICV bytes while the MD5 arm compares the full digest
length. -/
theorem C8_auth_dispatch (ealg : Nat) (md_len : HmacAlg → Nat) :
    (payload_encrypt_auth_alg ealg = some HmacAlg.sha1 ↔
      ealg = HIP_ESP_3DES_SHA1 ∨ ealg = HIP_ESP_NULL_SHA1 ∨
        ealg = HIP_ESP_AES_SHA1) ∧
    (payload_encrypt_auth_alg ealg = some HmacAlg.md5 ↔
      ealg = HIP_ESP_3DES_MD5 ∨ ealg = HIP_ESP_NULL_MD5) ∧
    payload_encrypt_auth_alg HIP_ESP_BLOWFISH_SHA1 = none ∧
    payload_decrypt_auth HIP_ESP_BLOWFISH_SHA1 md_len = none ∧
    payload_encrypt_icv_bytes = 12 ∧
    payload_decrypt_auth ealg md_len =
      (payload_encrypt_auth_alg ealg).map (fun alg =>
        (alg, 12, if alg = HmacAlg.sha1 then 12 else md_len HmacAlg.md5)) := by
  unfold payload_encrypt_auth_alg payload_decrypt_auth
    payload_encrypt_icv_bytes ICV_LENGTH HIP_ESP_AES_SHA1 HIP_ESP_3DES_SHA1
    HIP_ESP_3DES_MD5 HIP_ESP_BLOWFISH_SHA1 HIP_ESP_NULL_SHA1 HIP_ESP_NULL_MD5
  split_ifs <;> first
    | (simp_all; omega)
    | simp_all

/-! ### C5 — keymat draw order and symmetry -/

theorem specOrderBlock_draw (s : List Nat) (L : KeyLens) (g : Bool) :
    specOrderBlock (produce_keying_material_draw s L g) g =
      s.take (keymat_len_min L) := by
  have htot : keymat_len_min L =
      L.hip_transf_length + (L.hmac_transf_length + (L.hip_transf_length +
        (L.hmac_transf_length + (L.esp_transf_length + (L.auth_transf_length +
          (L.esp_transf_length + L.auth_transf_length)))))) := by
    unfold keymat_len_min
    ring
  rw [htot]
  cases g <;>
    simp [produce_keying_material_draw, specOrderBlock, List.take_add]

/-- C5: the eight base-exchange keys are drawn contiguously from the key
stream in the fixed order HIP-enc-gL, HIP-HMAC-gL, HIP-enc-Lg, HIP-HMAC-Lg,
ESP-enc-gL, ESP-auth-gL, ESP-enc-Lg, ESP-auth-Lg, where the gL-direction
keys are stored as the local *outbound* keys exactly on the host whose HIT
is numerically greater; and since the key stream depends on the HITs only
through the sorted pair, two hosts with HITs a > b, identical DH secret and
identical I, J derive byte-identical key blocks (host A processes messages
with sender HIT b and receiver HIT a, host B the converse). -/
theorem C5_keymat_draw_order_and_symmetry
    (kdf : List Nat → Nat × Nat → List Nat → List Nat → List Nat)
    (dh : List Nat) (a b : Nat) (I J : List Nat) (L : KeyLens)
    (h : hip_hit_is_bigger a b = true) :
    produce_keying_material kdf dh b a I J L =
      produce_keying_material_draw (hip_make_keymat kdf dh b a I J) L true ∧
    produce_keying_material kdf dh a b I J L =
      produce_keying_material_draw (hip_make_keymat kdf dh a b I J) L false ∧
    hip_make_keymat kdf dh b a I J = hip_make_keymat kdf dh a b I J ∧
    specOrderBlock (produce_keying_material kdf dh b a I J L) true =
      (hip_make_keymat kdf dh b a I J).take (keymat_len_min L) ∧
    specOrderBlock (produce_keying_material kdf dh a b I J L) false =
      (hip_make_keymat kdf dh b a I J).take (keymat_len_min L) ∧
    specOrderBlock (produce_keying_material kdf dh b a I J L) true =
      specOrderBlock (produce_keying_material kdf dh a b I J L) false ∧
    (produce_keying_material kdf dh b a I J L).hip_enc_out =
      (produce_keying_material kdf dh a b I J L).hip_enc_in ∧
    (produce_keying_material kdf dh b a I J L).hip_hmac_out =
      (produce_keying_material kdf dh a b I J L).hip_hmac_in ∧
    (produce_keying_material kdf dh b a I J L).hip_enc_in =
      (produce_keying_material kdf dh a b I J L).hip_enc_out ∧
    (produce_keying_material kdf dh b a I J L).hip_hmac_in =
      (produce_keying_material kdf dh a b I J L).hip_hmac_out ∧
    (produce_keying_material kdf dh b a I J L).esp_out =
      (produce_keying_material kdf dh a b I J L).esp_in ∧
    (produce_keying_material kdf dh b a I J L).auth_out =
      (produce_keying_material kdf dh a b I J L).auth_in ∧
    (produce_keying_material kdf dh b a I J L).esp_in =
      (produce_keying_material kdf dh a b I J L).esp_out ∧
    (produce_keying_material kdf dh b a I J L).auth_in =
      (produce_keying_material kdf dh a b I J L).auth_out := by
  have hba : hip_hit_is_bigger b a = false := by
    simp only [hip_hit_is_bigger, decide_eq_true_eq] at h
    simp only [hip_hit_is_bigger, decide_eq_false_iff_not]
    omega
  have hsort : sortHITs b a = sortHITs a b := by
    simp [sortHITs, h, hba]
  have hkm : hip_make_keymat kdf dh b a I J = hip_make_keymat kdf dh a b I J := by
    simp [hip_make_keymat, hsort]
  have hA : produce_keying_material kdf dh b a I J L =
      produce_keying_material_draw (hip_make_keymat kdf dh b a I J) L true := by
    simp [produce_keying_material, h]
  have hB : produce_keying_material kdf dh a b I J L =
      produce_keying_material_draw (hip_make_keymat kdf dh a b I J) L false := by
    simp [produce_keying_material, hba]
  refine ⟨hA, hB, hkm, ?_, ?_, ?_, ?_, ?_, ?_, ?_, ?_, ?_, ?_, ?_⟩ <;>
    simp only [hA, hB, ← hkm] <;>
    first
      | exact specOrderBlock_draw (hip_make_keymat kdf dh b a I J) L true
      | exact specOrderBlock_draw (hip_make_keymat kdf dh b a I J) L false
      | rw [specOrderBlock_draw, specOrderBlock_draw]
      | rfl

/-- Witness for C5 with HITs 2 > 1, DH secret [9], I = [5], J = [6],
singleton key lengths and a concrete kdf. -/
theorem C5_keymat_draw_order_and_symmetry_witness :
    specOrderBlock
        (produce_keying_material (fun d p i j => p.1 :: p.2 :: (d ++ i ++ j))
          [9] 1 2 [5] [6] ⟨1, 1, 1, 1⟩) true =
      specOrderBlock
        (produce_keying_material (fun d p i j => p.1 :: p.2 :: (d ++ i ++ j))
          [9] 2 1 [5] [6] ⟨1, 1, 1, 1⟩) false ∧
    (produce_keying_material (fun d p i j => p.1 :: p.2 :: (d ++ i ++ j))
        [9] 1 2 [5] [6] ⟨1, 1, 1, 1⟩).hip_enc_out =
      (produce_keying_material (fun d p i j => p.1 :: p.2 :: (d ++ i ++ j))
        [9] 2 1 [5] [6] ⟨1, 1, 1, 1⟩).hip_enc_in :=
  ⟨(C5_keymat_draw_order_and_symmetry
      (fun d p i j => p.1 :: p.2 :: (d ++ i ++ j)) [9] 2 1 [5] [6]
      ⟨1, 1, 1, 1⟩ (by decide)).2.2.2.2.2.1,
    (C5_keymat_draw_order_and_symmetry
      (fun d p i j => p.1 :: p.2 :: (d ++ i ++ j)) [9] 2 1 [5] [6]
      ⟨1, 1, 1, 1⟩ (by decide)).2.2.2.2.2.2.1⟩

/-! ### C4 — I2 retransmissions are idempotent -/

/-- C4: when an incoming I2 carries the same (new SPI, keymat index) as the
existing host association — `i2_is_retransmission` — `hip_check_i2` reuses
the existing association as-is: no deletion, no fresh association, and no
keying-material production (the stored keys survive unchanged), so the R2
rebuilt from the association state is the same R2 as for the original
I2. -/
theorem C4_i2_retransmission_idempotent (e fresh : HadbEntry)
    (new_spi keymat_index spi_inbound : Nat)
    (produce : HadbEntry → HaKeys) (hmac2_of sign_of : HadbEntry → List Nat)
    (hspi : e.spi_outbound_new = new_spi)
    (hkm : e.esp_keymat_index = keymat_index) :
    hip_check_i2_ha_management (some e) (some (new_spi, keymat_index))
        fresh produce =
      { entry := e, reused_existing := true, skip_key_creation := true } ∧
    (hip_check_i2_ha_management (some e) (some (new_spi, keymat_index))
        fresh produce).entry.keys = e.keys ∧
    hip_create_r2 hmac2_of sign_of spi_inbound
        (hip_check_i2_ha_management (some e) (some (new_spi, keymat_index))
          fresh produce).entry =
      hip_create_r2 hmac2_of sign_of spi_inbound e := by
  have hr : i2_is_retransmission e (some (new_spi, keymat_index)) = true := by
    simp [i2_is_retransmission, hspi, hkm]
  simp [hip_check_i2_ha_management, hr]

/-- Witness for C4 at a concrete host association (SPI 10, keymat index 4)
hit by an I2 with the same ESP_INFO. -/
theorem C4_i2_retransmission_idempotent_witness :
    hip_check_i2_ha_management
        (some ⟨10, 4, 2, ⟨[1], [2], [3], [4], [5], [6], [7], [8]⟩⟩)
        (some (10, 4)) ⟨0, 0, 0, ⟨[], [], [], [], [], [], [], []⟩⟩
        (fun _ => ⟨[9], [9], [9], [9], [9], [9], [9], [9]⟩) =
      { entry := ⟨10, 4, 2, ⟨[1], [2], [3], [4], [5], [6], [7], [8]⟩⟩
        reused_existing := true, skip_key_creation := true } :=
  (C4_i2_retransmission_idempotent
    ⟨10, 4, 2, ⟨[1], [2], [3], [4], [5], [6], [7], [8]⟩⟩
    ⟨0, 0, 0, ⟨[], [], [], [], [], [], [], []⟩⟩ 10 4 0
    (fun _ => ⟨[9], [9], [9], [9], [9], [9], [9], [9]⟩)
    (fun _ => []) (fun _ => []) rfl rfl).1

/-! ### C7 — duplicate first UPDATEs are cached again, not ignored -/

/-- C7 counterexample: `exTupleCached` already caches the anchor-update
item of a first UPDATE with seq 9; the identical UPDATE arriving a second
time passes the light-update SEQ guard (only *strictly smaller* seqs are
rejected) and `esp_prot_conntrack_cache_anchor` prepends a second item with
the same seq — the cache does not stay unchanged as claimed. -/
theorem C7_counterexample :
    esp_prot_conntrack_lupdate_seq_check 9 9 = true ∧
    (esp_prot_conntrack_cache_anchor (fun _ => 1) [exTupleCached] 9
        [exAnchorParam] [none]).map
        (fun ts => (ts.getD 0 default).anchor_cache.map EspAnchorItem.seq) =
      some [9, 9] := by
  constructor <;> decide

/-- C7 (amended): the anchor-update cache has no duplicate check: whenever
the tuple lookup succeeds, `esp_prot_conntrack_cache_anchor` prepends a new
item, so a duplicate first UPDATE with the same seq grows the cache by one
and leaves two items with that seq; the light-update path ignores only
UPDATEs whose seq is strictly smaller than the last seen one. -/
theorem C7_duplicate_first_update_cached_again (resolve : Nat → Nat)
    (ts : List EspTuple) (sequpd lupdate_seq : Nat)
    (a0 : EspProtAnchorParam) (rest : List EspProtAnchorParam)
    (roots : List (Option Anchor)) (idx : Nat)
    (hfind : esp_prot_conntrack_find_esp_tuple ts a0.active = some idx)
    (hseq : lupdate_seq ≤ sequpd) :
    esp_prot_conntrack_lupdate_seq_check sequpd lupdate_seq = true ∧
    ∃ ts', esp_prot_conntrack_cache_anchor resolve ts sequpd (a0 :: rest)
        roots = some ts' ∧
      (ts'.getD idx default).anchor_cache.countP (fun it => it.seq == sequpd) =
        (ts.getD idx default).anchor_cache.countP
          (fun it => it.seq == sequpd) + 1 ∧
      (ts'.getD idx default).anchor_cache.length =
        (ts.getD idx default).anchor_cache.length + 1 := by
  have hlt : idx < ts.length := findIdxO_lt_length _ _ _ hfind
  constructor
  · simp only [esp_prot_conntrack_lupdate_seq_check, decide_eq_true_eq]
    omega
  · use ts.set idx { ts.getD idx default with anchor_cache := (mkEspAnchorItem (resolve a0.transform) sequpd (ts.getD idx default).num_hchains (a0 :: rest) roots) :: (ts.getD idx default).anchor_cache }
    refine ⟨?_, ?_, ?_⟩
    · simp [esp_prot_conntrack_cache_anchor, hfind]
    · rw [getD_set_self _ _ _ _ hlt]
      simp [List.countP_cons, mkEspAnchorItem]
    · rw [getD_set_self _ _ _ _ hlt]
      simp

/-- Witness for C7 (amended): the duplicate UPDATE with seq 9 against
`exTupleCached` grows the anchor cache from one to two items with seq 9. -/
theorem C7_duplicate_first_update_cached_again_witness :
    esp_prot_conntrack_lupdate_seq_check 9 9 = true ∧
    ∃ ts', esp_prot_conntrack_cache_anchor (fun _ => 1) [exTupleCached] 9
        [exAnchorParam] [none] = some ts' ∧
      (ts'.getD 0 default).anchor_cache.countP (fun it => it.seq == 9) =
        ([exTupleCached].getD 0 default).anchor_cache.countP
          (fun it => it.seq == 9) + 1 ∧
      (ts'.getD 0 default).anchor_cache.length =
        ([exTupleCached].getD 0 default).anchor_cache.length + 1 :=
  C7_duplicate_first_update_cached_again (fun _ => 1) [exTupleCached] 9 9
    exAnchorParam [] [none] 0 (by decide) (by decide)

/-! ### C1 — what the UPDATE ACK actually rotates -/

theorem getD_set {α : Type} (d : α) (l : List α) (i j : Nat) (a : α) :
    (l.set j a).getD i d = if j = i ∧ j < l.length then a else l.getD i d := by
  induction l generalizing i j with
  | nil => simp
  | cons x xs ih =>
    cases j with
    | zero =>
      cases i with
      | zero => simp
      | succ n => simp
    | succ m =>
      cases i with
      | zero => simp
      | succ n =>
        rw [show (x :: xs).set (m + 1) a = x :: xs.set m a from rfl,
          List.getD_cons_succ, List.getD_cons_succ, ih]
        by_cases h : m = n ∧ m < xs.length
        · rw [if_pos h, if_pos (by simp; omega)]
        · rw [if_neg h, if_neg (by simp; omega)]

theorem update_anchor_chain_skip (item : EspAnchorItem) (u : EspTuple)
    (j : Nat)
    (hm : ¬ u.first_active_anchors.getD j [] = item.active_anchors.getD j []) :
    esp_prot_conntrack_update_anchor_chain item u j = u := by
  unfold esp_prot_conntrack_update_anchor_chain
  rw [if_neg hm]

theorem update_anchor_chain_next_eq (item : EspAnchorItem) (u : EspTuple)
    (j : Nat)
    (hm : u.first_active_anchors.getD j [] = item.active_anchors.getD j []) :
    (esp_prot_conntrack_update_anchor_chain item u j).next_anchors =
      u.next_anchors.set j ((item.next_anchors.getD j none).getD []) := by
  unfold esp_prot_conntrack_update_anchor_chain
  rw [if_pos hm]
  cases hr : item.roots.getD j none <;> simp [hr]

theorem update_anchor_chain_preserves (item : EspAnchorItem) (u : EspTuple)
    (j : Nat) :
    (esp_prot_conntrack_update_anchor_chain item u j).active_anchors =
        u.active_anchors ∧
    (esp_prot_conntrack_update_anchor_chain item u j).first_active_anchors =
        u.first_active_anchors ∧
    (esp_prot_conntrack_update_anchor_chain item u j).anchor_cache =
        u.anchor_cache ∧
    (esp_prot_conntrack_update_anchor_chain item u j).hash_item_length =
        u.hash_item_length ∧
    (esp_prot_conntrack_update_anchor_chain item u j).next_anchors.length =
        u.next_anchors.length := by
  unfold esp_prot_conntrack_update_anchor_chain
  split_ifs with hc
  · cases hr : item.roots.getD j none <;> simp [hr]
  · simp

theorem update_anchor_chain_fold_preserves (item : EspAnchorItem)
    (l : List Nat) (u : EspTuple) :
    ((l.foldl (esp_prot_conntrack_update_anchor_chain item) u).active_anchors =
        u.active_anchors ∧
      (l.foldl (esp_prot_conntrack_update_anchor_chain item) u).first_active_anchors =
        u.first_active_anchors ∧
      (l.foldl (esp_prot_conntrack_update_anchor_chain item) u).anchor_cache =
        u.anchor_cache ∧
      (l.foldl (esp_prot_conntrack_update_anchor_chain item) u).hash_item_length =
        u.hash_item_length ∧
      (l.foldl (esp_prot_conntrack_update_anchor_chain item) u).next_anchors.length =
        u.next_anchors.length) := by
  induction l generalizing u with
  | nil => exact ⟨rfl, rfl, rfl, rfl, rfl⟩
  | cons x xs ih =>
    simp only [List.foldl_cons]
    have h1 := update_anchor_chain_preserves item u x
    have h2 := ih (esp_prot_conntrack_update_anchor_chain item u x)
    exact ⟨h2.1.trans h1.1, h2.2.1.trans h1.2.1, h2.2.2.1.trans h1.2.2.1,
      h2.2.2.2.1.trans h1.2.2.2.1, h2.2.2.2.2.trans h1.2.2.2.2⟩

theorem update_anchor_chain_fold_next (item : EspAnchorItem) (l : List Nat)
    (u : EspTuple) (i : Nat)
    (hm : u.first_active_anchors.getD i [] = item.active_anchors.getD i [])
    (hlen : i < u.next_anchors.length) :
    (l.foldl (esp_prot_conntrack_update_anchor_chain item) u).next_anchors.getD i [] =
      if i ∈ l then (item.next_anchors.getD i none).getD []
      else u.next_anchors.getD i [] := by
  induction l generalizing u with
  | nil => simp
  | cons x xs ih =>
    simp only [List.foldl_cons]
    have hpre := update_anchor_chain_preserves item u x
    have hm' : (esp_prot_conntrack_update_anchor_chain item u x).first_active_anchors.getD i [] =
        item.active_anchors.getD i [] := by rw [hpre.2.1]; exact hm
    have hlen' : i < (esp_prot_conntrack_update_anchor_chain item u x).next_anchors.length := by
      rw [hpre.2.2.2.2]; exact hlen
    rw [ih (esp_prot_conntrack_update_anchor_chain item u x) hm' hlen']
    by_cases hx : i = x
    · subst hx
      have hval : (esp_prot_conntrack_update_anchor_chain item u i).next_anchors.getD i [] =
          (item.next_anchors.getD i none).getD [] := by
        rw [update_anchor_chain_next_eq item u i hm, getD_set]
        rw [if_pos ⟨rfl, hlen⟩]
      rw [if_pos (List.mem_cons_self i xs)]
      by_cases hxs : i ∈ xs
      · rw [if_pos hxs]
      · rw [if_neg hxs, hval]
    · have hval : (esp_prot_conntrack_update_anchor_chain item u x).next_anchors.getD i [] =
          u.next_anchors.getD i [] := by
        by_cases hg : u.first_active_anchors.getD x [] = item.active_anchors.getD x []
        · rw [update_anchor_chain_next_eq item u x hg, getD_set,
            if_neg (by simp [hx]; omega)]
        · rw [update_anchor_chain_skip item u x hg]
      by_cases hxs : i ∈ xs
      · rw [if_pos hxs, if_pos (List.mem_cons_of_mem x hxs)]
      · rw [if_neg hxs, if_neg (by simp [hx, hxs]), hval]

/-- C1 counterexample: `exTupleCached` (single chain, active anchor [1])
caches the anchor-update item with seq 9 whose new (next) anchor is [2].
The matching ACK (peer update id 9, old SPI 5) deletes the item, but the
tuple's *active* anchor remains [1] — only the *next*-anchor slot receives
the new anchor [2].  The claim that the active anchor is overwritten with
the new anchor on receipt of the ACK is false at this input. -/
theorem C1_counterexample :
    (esp_prot_conntrack_update_anchor [exTupleCached] 9 5).map
        (fun ts => ((ts.getD 0 default).active_anchors,
          (ts.getD 0 default).next_anchors,
          (ts.getD 0 default).anchor_cache.length)) =
      some ([[1]], [[2]], 0) ∧
    ¬ ([[1]] : List Anchor) = [[2]] := by
  constructor <;> decide

/-- C1 (amended): when the connection tracker receives the UPDATE ACK that
matches a cached anchor-update item (cached seq equals the ACK's peer
update id), the ESP-tuple's *next* anchor of every chain whose first-active
anchor equals the cached item's active anchor is overwritten with the new
anchor from the cached item, the tuple's hash-item length is taken over,
and the cached item is deleted from the cache exactly once; the *active*
anchors are left untouched (they rotate only later, inside packet
verification, when an anchor change is detected). -/
theorem C1_ack_updates_next_anchor_and_deletes_item (ts : List EspTuple)
    (ack spi ti ii : Nat)
    (hft : findIdxO (fun t => t.spi == spi) ts = some ti)
    (hfi : findIdxO (fun it => it.seq == ack)
      (ts.getD ti default).anchor_cache = some ii) :
    ((ts.getD ti default).anchor_cache.getD ii default).seq = ack ∧
    ∃ t2 : EspTuple, esp_prot_conntrack_update_anchor ts ack spi =
        some (ts.set ti { t2 with anchor_cache := t2.anchor_cache.eraseIdx ii }) ∧
      t2.active_anchors = (ts.getD ti default).active_anchors ∧
      t2.first_active_anchors = (ts.getD ti default).first_active_anchors ∧
      t2.anchor_cache = (ts.getD ti default).anchor_cache ∧
      t2.hash_item_length =
        ((ts.getD ti default).anchor_cache.getD ii default).hash_item_length ∧
      (∀ i, i < (ts.getD ti default).num_hchains →
        (ts.getD ti default).first_active_anchors.getD i [] =
          ((ts.getD ti default).anchor_cache.getD ii default).active_anchors.getD i [] →
        i < (ts.getD ti default).next_anchors.length →
        t2.next_anchors.getD i [] =
          (((ts.getD ti default).anchor_cache.getD ii default).next_anchors.getD i none).getD []) := by
  constructor
  · have := findIdxO_getD (fun it => it.seq == ack)
      (ts.getD ti default).anchor_cache ii default hfi
    simpa using this
  · use (List.range (ts.getD ti default).num_hchains).foldl (esp_prot_conntrack_update_anchor_chain ((ts.getD ti default).anchor_cache.getD ii default)) { ts.getD ti default with hash_item_length := ((ts.getD ti default).anchor_cache.getD ii default).hash_item_length }
    have hpres := update_anchor_chain_fold_preserves
      ((ts.getD ti default).anchor_cache.getD ii default)
      (List.range (ts.getD ti default).num_hchains)
      { ts.getD ti default with hash_item_length :=
          ((ts.getD ti default).anchor_cache.getD ii default).hash_item_length }
    refine ⟨?_, hpres.1, hpres.2.1, hpres.2.2.1, hpres.2.2.2.1, ?_⟩
    · simp only [esp_prot_conntrack_update_anchor, hft, hfi]
    · intro i hi hmi hleni
      have hnext := update_anchor_chain_fold_next
        ((ts.getD ti default).anchor_cache.getD ii default)
        (List.range (ts.getD ti default).num_hchains)
        { ts.getD ti default with hash_item_length :=
            ((ts.getD ti default).anchor_cache.getD ii default).hash_item_length }
        i hmi hleni
      rw [hnext, if_pos (List.mem_range.mpr hi)]

/-- Witness for C1 (amended) at the concrete state `exTupleCached`: the ACK
with peer update id 9 and old SPI 5 deletes the cached item and leaves the
active anchors untouched. -/
theorem C1_ack_updates_next_anchor_and_deletes_item_witness :
    ∃ t2 : EspTuple, esp_prot_conntrack_update_anchor [exTupleCached] 9 5 =
        some ([exTupleCached].set 0
          { t2 with anchor_cache := t2.anchor_cache.eraseIdx 0 }) ∧
      t2.active_anchors = exTupleCached.active_anchors ∧
      t2.anchor_cache = exTupleCached.anchor_cache := by
  obtain ⟨-, t2, h1, h2, -, h4, -, -⟩ :=
    C1_ack_updates_next_anchor_and_deletes_item [exTupleCached] 9 5 0 0
      (by decide) (by decide)
  exact ⟨t2, h1, h2, h4⟩

/-! ### C3 — the verification window is not the only acceptance path -/

/-- C3 counterexample: a CUMULATIVE-mode tuple with stored seq 200 receives
a late packet with seq 100.  Its window difference W = (100 - 200) mod 2^32
is far above the window size 64, yet the packet is *accepted* (result 0)
because its (seq, hash) pair matches the cumulative-authentication ring
buffer — refuting "accepted if and only if 0 < W ≤ window_size". -/
theorem C3_counterexample :
    esp_prot_conntrack_verify (fun _ _ _ _ => (-1, [])) (fun _ _ _ => -1)
        64 8 exTupleCumul exPktLate = (0, exTupleCumul) ∧
    ¬ (0 < u32sub exPktLate.esp_seq exTupleCumul.seq_no ∧
        u32sub exPktLate.esp_seq exTupleCumul.seq_no ≤ 64) := by
  constructor <;> decide

/-- C3 (amended): for the plain hash-chain transforms (PLAIN, PARALLEL) the
token of an incoming packet is chain-verified exactly when
W = (esp_seq - stored seq) mod 2^32 satisfies 0 < W ≤ window_size; a packet
outside the window is dropped with the tuple — in particular the active
anchor — unchanged, and a packet inside the window is dropped (tuple
unchanged) or accepted according to the hash-chain element verification.
Cumulative transforms may additionally accept packets behind the window via
the cumulative-auth ring buffer, and tree mode performs no window check. -/
theorem C3_window_law
    (vh : Anchor → Anchor → Anchor → Nat → Int × Anchor)
    (vt : EspTuple → Nat → Anchor → Int)
    (ws rbs : Nat) (t : EspTuple) (pkt : EspProtPacket)
    (htfm : t.esp_prot_tfm = ESP_PROT_TFM_PLAIN ∨
      t.esp_prot_tfm = ESP_PROT_TFM_PARALLEL) :
    (¬ (0 < u32sub pkt.esp_seq t.seq_no ∧
        u32sub pkt.esp_seq t.seq_no ≤ ws) →
      esp_prot_conntrack_verify vh vt ws rbs t pkt = (-1, t)) ∧
    ((0 < u32sub pkt.esp_seq t.seq_no ∧ u32sub pkt.esp_seq t.seq_no ≤ ws) →
      (vh (t.active_anchors.getD (u32sub pkt.esp_seq 1 % t.num_hchains) [])
          (t.next_anchors.getD (u32sub pkt.esp_seq 1 % t.num_hchains) [])
          pkt.token (u32sub pkt.esp_seq t.seq_no)).1 < 0 →
      esp_prot_conntrack_verify vh vt ws rbs t pkt = (-1, t)) ∧
    ((0 < u32sub pkt.esp_seq t.seq_no ∧ u32sub pkt.esp_seq t.seq_no ≤ ws) →
      0 ≤ (vh (t.active_anchors.getD (u32sub pkt.esp_seq 1 % t.num_hchains) [])
          (t.next_anchors.getD (u32sub pkt.esp_seq 1 % t.num_hchains) [])
          pkt.token (u32sub pkt.esp_seq t.seq_no)).1 →
      (esp_prot_conntrack_verify vh vt ws rbs t pkt).1 = 0) := by
  have h0 : ¬ t.esp_prot_tfm ≤ ESP_PROT_TFM_UNUSED := by
    rcases htfm with h | h <;>
      simp [h, ESP_PROT_TFM_PLAIN, ESP_PROT_TFM_PARALLEL, ESP_PROT_TFM_UNUSED]
  have hT : ¬ t.esp_prot_tfm = ESP_PROT_TFM_TREE := by
    rcases htfm with h | h <;>
      simp [h, ESP_PROT_TFM_PLAIN, ESP_PROT_TFM_PARALLEL, ESP_PROT_TFM_TREE]
  have hC : ¬ (t.esp_prot_tfm = ESP_PROT_TFM_CUMULATIVE ∨
      t.esp_prot_tfm = ESP_PROT_TFM_PARA_CUMUL) := by
    rcases htfm with h | h <;>
      simp [h, ESP_PROT_TFM_PLAIN, ESP_PROT_TFM_PARALLEL,
        ESP_PROT_TFM_CUMULATIVE, ESP_PROT_TFM_PARA_CUMUL]
  refine ⟨?_, ?_, ?_⟩
  · intro hw
    unfold esp_prot_conntrack_verify
    simp [h0, hT, hC, hw]
  · intro hw hv
    simp only [List.getD_eq_getElem?_getD] at hv
    unfold esp_prot_conntrack_verify
    simp [h0, hT, hC, hw, hv]
  · intro hw hv
    have hv' : ¬ (vh (t.active_anchors.getD (u32sub pkt.esp_seq 1 % t.num_hchains) [])
        (t.next_anchors.getD (u32sub pkt.esp_seq 1 % t.num_hchains) [])
        pkt.token (u32sub pkt.esp_seq t.seq_no)).1 < 0 := by omega
    simp only [List.getD_eq_getElem?_getD] at hv'
    unfold esp_prot_conntrack_verify
    simp [h0, hT, hC, hw, hv']
    split_ifs <;> simp

/-- Witness for C3 (amended): the PLAIN tuple `exTuplePlain` (stored seq
10) receives a replay with the same seq 10; W = 0 lies outside the window
and the packet is dropped with the tuple unchanged. -/
theorem C3_window_law_witness :
    esp_prot_conntrack_verify (fun _ _ _ _ => (0, [])) (fun _ _ _ => 0)
        64 8 exTuplePlain exPktSame = (-1, exTuplePlain) :=
  (C3_window_law (fun _ _ _ _ => (0, [])) (fun _ _ _ => 0) 64 8 exTuplePlain
    exPktSame (Or.inl rfl)).1 (by decide)

end Hipl
